import Mathlib

set_option maxRecDepth 100000

/-!
Shallow embedding of the Career-Counseling-Agent application (src/app.py).

The application wires four prompt-template-backed tools to an external
agent loop behind a chat UI.  The embedding below models:

* the four tool prompt renderers (the `prompt = f"""..."""` expressions in
  `_skills_gap_analyzer`, `_resume_scorer`, `_salary_estimator`,
  `_interview_question_generator`);
* the tool dictionary and `build_tools` (dict lookup raising `KeyError`
  for an unknown key is modelled as `Option` failure: `none`);
* the chat-input handler (transcript turns appended per cycle, the
  `try/except` around `agent.run` producing the diagnostic reply);
* the clear-conversation handler resetting transcript and memory.

The LLM call (`llm.invoke`) and the agent loop are external collaborators;
they are represented by function parameters or by the outcome (success or
raised exception) the handler observes.
-/

/-- A chat transcript turn, as stored in `st.session_state["messages"]`:
a dict `{"role": ..., "content": ...}`. -/
structure Turn where
  role : String
  content : String
deriving DecidableEq, Repr

/-- The prompt built by `_skills_gap_analyzer` (src/app.py lines 28-42):
the fixed f-string template with `input_text` interpolated before the final
newline. -/
def skills_gap_prompt (input_text : String) : String :=
  "\nYou are a senior career coach and technical mentor.\n\nTask: Compare the user\x27s current skills against the target job and identify:\n1. Strong matches\n2. Partial matches\n3. Clear gaps\n4. A step-by-step learning path (ordered roadmap) to close the gaps.\n5. Recommended resources or practice project ideas.\n\nBe concrete and structured. Use short sections and bullet points.\n\nUser & Job Info:\n"
  ++ input_text ++ "\n"

/-- The prompt built by `_resume_scorer` (src/app.py lines 68-84). -/
def resume_scorer_prompt (input_text : String) : String :=
  "\nYou are an expert resume reviewer for top tech companies.\n\nTask:\n1. Score the resume out of 10 for the specified target role.\n2. Briefly explain the score.\n3. List concrete, actionable improvements:\n   - content (projects, impact, metrics)\n   - structure & clarity\n   - keywords & ATS-friendliness\n4. Provide a revised sample bullet or small section as an example.\n\nBe concise but specific.\n\nInput:\n"
  ++ input_text ++ "\n"

/-- The prompt built by `_salary_estimator` (src/app.py lines 110-127). -/
def salary_estimator_prompt (input_text : String) : String :=
  "\nYou are a career and compensation advisor.\n\nTask:\n1. Estimate a realistic **base salary range** for this profile (low, median, high).\n2. Specify the assumed currency clearly.\n3. Mention factors that affect the range:\n   - company size (startup vs big tech),\n   - cost of living at the location,\n   - skills & specialization,\n   - remote vs on-site.\n4. Add a short note on how the user can validate/adjust this range using public sources.\n\nBe explicit that this is an approximate estimate, not official or guaranteed.\n\nProfile:\n"
  ++ input_text ++ "\n"

/-- The prompt built by `_interview_question_generator` (src/app.py
lines 154-167). -/
def interview_question_prompt (input_text : String) : String :=
  "\nYou are an expert interviewer.\n\nTask:\n1. Generate interview questions for the given role and level.\n2. Include the requested mix of technical and/or behavioral questions.\n3. Group questions by category (e.g., Technical - Python, Technical - SQL, Behavioral).\n4. For each question, optionally add:\n   - a short hint or what the interviewer is looking for,\n   - difficulty tag (easy/medium/hard).\n\nInput:\n"
  ++ input_text ++ "\n"

/-- Identity of the four tools constructed by the `make_*_tool` factories,
in declaration order of the `all_tools` dict in `build_tools`. -/
inductive ToolId where
  | skills_gap_analyzer
  | resume_scorer
  | salary_estimator
  | interview_question_generator
deriving DecidableEq, Repr

/-- The `name=` field each factory passes to `Tool(...)`. -/
def toolName : ToolId → String
  | .skills_gap_analyzer => "skills_gap_analyzer"
  | .resume_scorer => "resume_scorer"
  | .salary_estimator => "salary_estimator"
  | .interview_question_generator => "interview_question_generator"

/-- The prompt renderer of each tool function (`func=` field). -/
def toolRender : ToolId → String → String
  | .skills_gap_analyzer => skills_gap_prompt
  | .resume_scorer => resume_scorer_prompt
  | .salary_estimator => salary_estimator_prompt
  | .interview_question_generator => interview_question_prompt

/-- Each tool function renders its prompt and invokes the configured
model (`resp = llm.invoke(prompt); return resp.content`); the model is an
external collaborator, passed as a function. -/
def toolInvoke (llm : String → String) (t : ToolId) (input_text : String) : String :=
  llm (toolRender t input_text)

/-- The `all_tools` dict literal in `build_tools` (src/app.py lines
183-188), in declaration order, as an association list from the
human-readable label to the constructed tool. -/
def all_tools : List (String × ToolId) :=
  [("Skills Gap Analyzer", .skills_gap_analyzer),
   ("Resume Scorer", .resume_scorer),
   ("Salary Estimator", .salary_estimator),
   ("Interview Question Generator", .interview_question_generator)]

/-- Python expression `all_tools[name]`: dict subscript, raising `KeyError`
(modelled as `none`) when `name` is not a key. -/
def dictGet (name : String) : Option ToolId :=
  all_tools.lookup name

/-- `build_tools` (src/app.py lines 181-189): the list comprehension
`[all_tools[name] for name in enabled_tool_names]`.  A `KeyError` raised
by the subscript aborts the comprehension, modelled by `Option`. -/
def build_tools (enabled_tool_names : List String) : Option (List ToolId) :=
  enabled_tool_names.mapM dictGet

/-- Outcome of `agent.run(user_input)` as observed by the handler: either
a reply string, or a raised exception carrying its message text. -/
inductive AgentOutcome where
  | ok (reply : String)
  | error (msg : String)

/-- The `try/except` around `agent.run` (src/app.py lines 275-278): on
success the reply, on any exception the f-string
`f"Oops, something went wrong: {e}"`. -/
def agentResponseText : AgentOutcome → String
  | .ok r => r
  | .error e => "Oops, something went wrong: " ++ e

/-- The chat-input handler (src/app.py lines 264-281).  `st.chat_input`
yields `none` when no utterance was submitted; `if user_input:` is falsy
for `None` and for the empty string.  Otherwise the handler appends the
user turn and then the assistant turn holding `agentResponseText`. -/
def chat_input_step (messages : List Turn) (user_input : Option String)
    (outcome : AgentOutcome) : List Turn :=
  match user_input with
  | none => messages
  | some u =>
    if u = "" then messages
    else messages ++ [⟨"user", u⟩, ⟨"assistant", agentResponseText outcome⟩]

/-- Modelled from the spec: `ConversationBufferMemory` is supplied by an
external library and is not in src/.  The spec describes it as an ordered
sequence of turns where `clear()` empties the log in full and
`asContext()` exposes the ordered turn sequence.  We model the buffer as
that sequence. -/
def memoryClear (_m : List Turn) : List Turn := []

/-- Modelled from the spec: `asContext()` exposes the ordered turn
sequence of the memory buffer, read-only. -/
def asContext (m : List Turn) : List Turn := m

/-- Session state owned by the shell: the transcript
(`st.session_state["messages"]`) and the conversation memory buffer. -/
structure SessionState where
  messages : List Turn
  memory : List Turn
deriving Repr

/-- The clear-conversation handler (src/app.py lines 236-239): when the
button was pressed it sets `st.session_state["messages"] = []` and calls
`st.session_state["memory"].clear()`; otherwise nothing happens. -/
def clear_chat_handler (s : SessionState) (clear_chat : Bool) : SessionState :=
  if clear_chat then { messages := [], memory := memoryClear s.memory } else s

/-- String `t` contains `s` as a contiguous substring. -/
def containsStr (t s : String) : Prop :=
  ∃ p q : String, t = p ++ s ++ q

/-- The end-to-end scenario A input from the specification: a
structured request for the skills-gap tool. -/
def scenarioA_input : String :=
  "Target Role: Backend Engineer\nUser Skills:\n- Python\n- SQL\nTarget Job Description:\nBuild scalable APIs"

/-- Unfolding of `build_tools` on a cons cell: the comprehension first
evaluates the subscript for the head name, then the rest. -/
theorem build_tools_cons (n : String) (ns : List String) :
    build_tools (n :: ns) =
      (dictGet n).bind fun t => (build_tools ns).map fun ts => t :: ts := by
  show (n :: ns).mapM dictGet =
    (dictGet n).bind fun t => (ns.mapM dictGet).map fun ts => t :: ts
  rw [List.mapM_cons]
  cases dictGet n with
  | none => rfl
  | some t => cases hb : ns.mapM dictGet <;> rfl

/-- The comprehension aborts (KeyError) exactly when some name is not a
key of the dict. -/
theorem build_tools_none_iff_aux (ns : List String) :
    build_tools ns = none ↔ ∃ n ∈ ns, dictGet n = none := by
  induction ns with
  | nil => simp [show build_tools [] = some [] from rfl]
  | cons n ns ih =>
    rw [build_tools_cons]
    constructor
    · intro h
      cases hd : dictGet n with
      | none => exact ⟨n, List.mem_cons_self n ns, hd⟩
      | some t =>
        rw [hd] at h
        cases hb : build_tools ns with
        | none =>
          obtain ⟨m, hm, hmn⟩ := ih.mp hb
          exact ⟨m, List.mem_cons_of_mem _ hm, hmn⟩
        | some ts => rw [hb] at h; simp at h
    · rintro ⟨m, hm, hmn⟩
      rcases List.mem_cons.mp hm with rfl | hm'
      · rw [hmn]; rfl
      · rw [ih.mpr ⟨m, hm', hmn⟩]
        cases dictGet n <;> rfl

/-- A successful comprehension returns exactly the dict values for the
input names, in input order. -/
theorem build_tools_some_eq_aux (ns : List String) :
    ∀ ts : List ToolId, build_tools ns = some ts → ts = ns.filterMap dictGet := by
  induction ns with
  | nil =>
    intro ts h
    have h' : some [] = some ts := h
    simpa using (Option.some.inj h').symm
  | cons n ns ih =>
    intro ts h
    rw [build_tools_cons] at h
    cases hd : dictGet n with
    | none => rw [hd] at h; simp at h
    | some t =>
      rw [hd] at h
      cases hb : build_tools ns with
      | none => rw [hb] at h; simp at h
      | some ts' =>
        rw [hb] at h
        have h' : some (t :: ts') = some ts := h
        have : t :: ts' = ts := Option.some.inj h'
        rw [← this, List.filterMap_cons, hd, ih ts' hb]

/-- When every name is a dict key, the comprehension succeeds, preserves
length, and is pointwise the dict lookup of the corresponding name. -/
theorem build_tools_known_aux (ns : List String) :
    (∀ n ∈ ns, (dictGet n).isSome) →
    ∃ ts, build_tools ns = some ts ∧ ts.length = ns.length ∧
      ∀ i : Nat, ts.get? i = (ns.get? i).bind dictGet := by
  induction ns with
  | nil => exact fun _ => ⟨[], rfl, rfl, fun i => by cases i <;> rfl⟩
  | cons n ns ih =>
    intro h
    obtain ⟨t, ht⟩ :=
      Option.isSome_iff_exists.mp (h n (List.mem_cons_self n ns))
    obtain ⟨ts, hts, hlen, hget⟩ :=
      ih fun m hm => h m (List.mem_cons_of_mem _ hm)
    refine ⟨t :: ts, ?_, by simp [hlen], ?_⟩
    · rw [build_tools_cons, ht, hts]; rfl
    · intro i
      cases i with
      | zero => simp [ht]
      | succ j => simpa using hget j

/-- C1 counterexample: an enabled name that matches no dict key is not
ignored — the subscript `all_tools[name]` raises `KeyError` (modelled as
`none`), so `build_tools` does not return the subset of known tools. -/
theorem build_tools_unknown_name_raises :
    build_tools ["Unknown Tool"] = none ∧ build_tools ["Unknown Tool"] ≠ some [] := by
  decide

/-- C1 (amended): `build_tools` fails with a `KeyError` (modelled as
`none`) exactly when some enabled name does not match a known tool name;
it returns a tool list without error exactly when every enabled name is a
known tool name. -/
theorem build_tools_fails_iff_unknown_name (ns : List String) :
    build_tools ns = none ↔ ∃ n ∈ ns, dictGet n = none :=
  build_tools_none_iff_aux ns

/-- C2 counterexample: two enabled-name lists holding the same set of
known tool names in different orders yield differently ordered results,
and the result does not follow declaration order (Skills Gap Analyzer
first): `build_tools` follows the order of the input list. -/
theorem build_tools_order_not_declaration_order :
    (["Resume Scorer", "Skills Gap Analyzer"] : List String).Perm
      ["Skills Gap Analyzer", "Resume Scorer"]
    ∧ build_tools ["Resume Scorer", "Skills Gap Analyzer"]
        ≠ build_tools ["Skills Gap Analyzer", "Resume Scorer"]
    ∧ build_tools ["Resume Scorer", "Skills Gap Analyzer"]
        ≠ some [ToolId.skills_gap_analyzer, ToolId.resume_scorer] :=
  ⟨List.Perm.swap "Skills Gap Analyzer" "Resume Scorer" [], by decide, by decide⟩

/-- C2 (amended): the order of the returned tools is determined by, and
follows, the order of the enabled-names list itself (the i-th returned
tool is the dict value of the i-th name), so the result is deterministic
for a fixed input list but is not independent of the order of `names`. -/
theorem build_tools_order_follows_input (ns : List String) (ts : List ToolId)
    (h : build_tools ns = some ts) : ts = ns.filterMap dictGet :=
  build_tools_some_eq_aux ns ts h

/-- C2 witness: a concrete enabled-names list evaluated through the
amended theorem. -/
theorem build_tools_order_follows_input_witness :
    build_tools ["Salary Estimator", "Skills Gap Analyzer"]
      = some [ToolId.salary_estimator, ToolId.skills_gap_analyzer]
    ∧ [ToolId.salary_estimator, ToolId.skills_gap_analyzer]
      = (["Salary Estimator", "Skills Gap Analyzer"] : List String).filterMap dictGet :=
  ⟨by decide, build_tools_order_follows_input _ _ (by decide)⟩

/-- C9: when every enabled name is a known tool name, `build_tools`
succeeds with a list of the same length as the input, whose i-th element
is the tool the i-th name maps to — so a name occurring twice yields the
same tool twice (no deduplication). -/
theorem build_tools_preserves_length_and_duplicates (ns : List String)
    (h : ∀ n ∈ ns, (dictGet n).isSome) :
    ∃ ts, build_tools ns = some ts ∧ ts.length = ns.length ∧
      ∀ i : Nat, ts.get? i = (ns.get? i).bind dictGet :=
  build_tools_known_aux ns h

/-- C9 witness: the duplicated name "Resume Scorer" yields a two-element
result through the theorem. -/
theorem build_tools_preserves_length_and_duplicates_witness :
    (∀ n ∈ (["Resume Scorer", "Resume Scorer"] : List String), (dictGet n).isSome)
    ∧ ∃ ts, build_tools ["Resume Scorer", "Resume Scorer"] = some ts
        ∧ ts.length = (["Resume Scorer", "Resume Scorer"] : List String).length
        ∧ ∀ i : Nat,
            ts.get? i = ((["Resume Scorer", "Resume Scorer"] : List String).get? i).bind dictGet := by
  have hk : ∀ n ∈ (["Resume Scorer", "Resume Scorer"] : List String), (dictGet n).isSome := by
    decide
  exact ⟨hk, build_tools_preserves_length_and_duplicates _ hk⟩

/-- Helper: appending to a non-empty string never yields the empty
string. -/
theorem str_append_ne_empty (a b : String) (h : a ≠ "") : a ++ b ≠ "" := by
  intro hab
  apply h
  cases a with
  | mk l =>
    cases b with
    | mk m =>
      have hd : l ++ m = [] := congrArg String.data hab
      have hl : l = [] := (List.append_eq_nil.mp hd).1
      rw [hl]

/-- C3: when the agent run raises an exception, the handler produces the
non-empty diagnostic reply prefixed with "Oops, something went wrong: ",
appends it as the assistant turn of the cycle after the user turn, and the
resulting transcript still accepts further cycles (the step function
keeps appending turns instead of propagating the failure). -/
theorem agent_failure_produces_diagnostic_turn (messages : List Turn)
    (u e : String) (hu : u ≠ "") :
    chat_input_step messages (some u) (.error e) =
      messages ++ [⟨"user", u⟩, ⟨"assistant", agentResponseText (.error e)⟩]
    ∧ agentResponseText (.error e) ≠ ""
    ∧ (∃ rest, agentResponseText (.error e) = "Oops, something went wrong: " ++ rest)
    ∧ ∀ (u₂ : String) (o₂ : AgentOutcome), u₂ ≠ "" →
        (chat_input_step (chat_input_step messages (some u) (.error e))
            (some u₂) o₂).length = messages.length + 4 := by
  refine ⟨by simp [chat_input_step, hu], ?_, ⟨e, rfl⟩, ?_⟩
  · exact str_append_ne_empty "Oops, something went wrong: " e (by decide)
  · intro u₂ o₂ h₂
    simp [chat_input_step, hu, h₂]

/-- C3 witness: a concrete failing cycle evaluated through the theorem. -/
theorem agent_failure_produces_diagnostic_turn_witness :
    chat_input_step [] (some "hi") (.error "boom") =
      [⟨"user", "hi"⟩, ⟨"assistant", "Oops, something went wrong: boom"⟩]
    ∧ agentResponseText (.error "boom") ≠ "" := by
  have h := agent_failure_produces_diagnostic_turn [] "hi" "boom" (by decide)
  exact ⟨by simpa using h.1, h.2.1⟩

/-- C10: an interaction cycle leaves the transcript unchanged when the
utterance is absent or empty; a non-empty utterance appends exactly the
user turn then the assistant turn, modifying no existing turn; and the
role invariant (every turn is "user" or "assistant") is preserved. -/
theorem chat_cycle_transcript_shape (messages : List Turn) (o : AgentOutcome) :
    chat_input_step messages none o = messages
    ∧ chat_input_step messages (some "") o = messages
    ∧ (∀ u : String, u ≠ "" →
        chat_input_step messages (some u) o =
          messages ++ [⟨"user", u⟩, ⟨"assistant", agentResponseText o⟩])
    ∧ ∀ inp : Option String,
        (∀ t ∈ messages, t.role = "user" ∨ t.role = "assistant") →
        ∀ t ∈ chat_input_step messages inp o,
          t.role = "user" ∨ t.role = "assistant" := by
  refine ⟨rfl, by simp [chat_input_step], ?_, ?_⟩
  · intro u hu
    simp [chat_input_step, hu]
  · intro inp h t ht
    cases inp with
    | none => exact h t ht
    | some u =>
      by_cases hu : u = ""
      · rw [hu] at ht
        exact h t (by simpa [chat_input_step] using ht)
      · simp [chat_input_step, hu] at ht
        rcases ht with ht | ht | ht
        · exact h t ht
        · rw [ht]; left; rfl
        · rw [ht]; right; rfl

/-- C10 witness: a concrete non-empty cycle evaluated through the
theorem. -/
theorem chat_cycle_transcript_shape_witness :
    chat_input_step [] (some "hello") (.ok "hi") =
      [⟨"user", "hello"⟩, ⟨"assistant", "hi"⟩] := by
  have h := (chat_cycle_transcript_shape [] (.ok "hi")).2.2.1 "hello" (by decide)
  simpa using h

/-- C8: the clear action resets transcript and memory together: after it
runs, the transcript is the empty list and the memory context sequence is
empty. -/
theorem clear_resets_transcript_and_memory (s : SessionState) :
    (clear_chat_handler s true).messages = []
    ∧ asContext (clear_chat_handler s true).memory = [] :=
  ⟨rfl, rfl⟩

/-- C4: prompt rendering is a pure total function for all four tools:
identical input strings render to identical prompt strings. -/
theorem render_deterministic (s₁ s₂ : String) (h : s₁ = s₂) :
    skills_gap_prompt s₁ = skills_gap_prompt s₂
    ∧ resume_scorer_prompt s₁ = resume_scorer_prompt s₂
    ∧ salary_estimator_prompt s₁ = salary_estimator_prompt s₂
    ∧ interview_question_prompt s₁ = interview_question_prompt s₂ := by
  subst h
  exact ⟨rfl, rfl, rfl, rfl⟩

/-- C4 witness: rendering twice at a concrete input. -/
theorem render_deterministic_witness :
    skills_gap_prompt "x" = skills_gap_prompt "x"
    ∧ resume_scorer_prompt "x" = resume_scorer_prompt "x"
    ∧ salary_estimator_prompt "x" = salary_estimator_prompt "x"
    ∧ interview_question_prompt "x" = interview_question_prompt "x" :=
  render_deterministic "x" "x" rfl

/-- C5: every input string, malformed or not, is embedded verbatim as a
contiguous substring into each of the four fixed instruction templates
(no parsing or validation happens on the way). -/
theorem tools_embed_input_verbatim (s : String) :
    containsStr (skills_gap_prompt s) s
    ∧ containsStr (resume_scorer_prompt s) s
    ∧ containsStr (salary_estimator_prompt s) s
    ∧ containsStr (interview_question_prompt s) s :=
  ⟨⟨_, "\n", rfl⟩, ⟨_, "\n", rfl⟩, ⟨_, "\n", rfl⟩, ⟨_, "\n", rfl⟩⟩

/-- C7: for every input, the salary-estimation prompt contains the
explicit disclaimer instruction that the result is an approximate
estimate, not official or guaranteed. -/
theorem salary_prompt_has_disclaimer (s : String) :
    containsStr (salary_estimator_prompt s)
      "Be explicit that this is an approximate estimate, not official or guaranteed." :=
  ⟨"\nYou are a career and compensation advisor.\n\nTask:\n1. Estimate a realistic **base salary range** for this profile (low, median, high).\n2. Specify the assumed currency clearly.\n3. Mention factors that affect the range:\n   - company size (startup vs big tech),\n   - cost of living at the location,\n   - skills & specialization,\n   - remote vs on-site.\n4. Add a short note on how the user can validate/adjust this range using public sources.\n\n",
   "\n\nProfile:\n" ++ s ++ "\n", rfl⟩

/-- C6: on the scenario A input, the skills-gap prompt contains each of
the template's five numbered instructions, and the input appears verbatim
at the end of the prompt (followed only by the template's closing
newline). -/
theorem scenarioA_skills_gap_prompt_shape :
    containsStr (skills_gap_prompt scenarioA_input) "1. Strong matches"
    ∧ containsStr (skills_gap_prompt scenarioA_input) "2. Partial matches"
    ∧ containsStr (skills_gap_prompt scenarioA_input) "3. Clear gaps"
    ∧ containsStr (skills_gap_prompt scenarioA_input)
        "4. A step-by-step learning path (ordered roadmap) to close the gaps."
    ∧ containsStr (skills_gap_prompt scenarioA_input)
        "5. Recommended resources or practice project ideas."
    ∧ ∃ p : String, skills_gap_prompt scenarioA_input = p ++ scenarioA_input ++ "\n" :=
  ⟨⟨"\nYou are a senior career coach and technical mentor.\n\nTask: Compare the user\x27s current skills against the target job and identify:\n",
    "\n2. Partial matches\n3. Clear gaps\n4. A step-by-step learning path (ordered roadmap) to close the gaps.\n5. Recommended resources or practice project ideas.\n\nBe concrete and structured. Use short sections and bullet points.\n\nUser & Job Info:\n" ++ scenarioA_input ++ "\n",
    rfl⟩,
   ⟨"\nYou are a senior career coach and technical mentor.\n\nTask: Compare the user\x27s current skills against the target job and identify:\n1. Strong matches\n",
    "\n3. Clear gaps\n4. A step-by-step learning path (ordered roadmap) to close the gaps.\n5. Recommended resources or practice project ideas.\n\nBe concrete and structured. Use short sections and bullet points.\n\nUser & Job Info:\n" ++ scenarioA_input ++ "\n",
    rfl⟩,
   ⟨"\nYou are a senior career coach and technical mentor.\n\nTask: Compare the user\x27s current skills against the target job and identify:\n1. Strong matches\n2. Partial matches\n",
    "\n4. A step-by-step learning path (ordered roadmap) to close the gaps.\n5. Recommended resources or practice project ideas.\n\nBe concrete and structured. Use short sections and bullet points.\n\nUser & Job Info:\n" ++ scenarioA_input ++ "\n",
    rfl⟩,
   ⟨"\nYou are a senior career coach and technical mentor.\n\nTask: Compare the user\x27s current skills against the target job and identify:\n1. Strong matches\n2. Partial matches\n3. Clear gaps\n",
    "\n5. Recommended resources or practice project ideas.\n\nBe concrete and structured. Use short sections and bullet points.\n\nUser & Job Info:\n" ++ scenarioA_input ++ "\n",
    rfl⟩,
   ⟨"\nYou are a senior career coach and technical mentor.\n\nTask: Compare the user\x27s current skills against the target job and identify:\n1. Strong matches\n2. Partial matches\n3. Clear gaps\n4. A step-by-step learning path (ordered roadmap) to close the gaps.\n",
    "\n\nBe concrete and structured. Use short sections and bullet points.\n\nUser & Job Info:\n" ++ scenarioA_input ++ "\n",
    rfl⟩,
   ⟨"\nYou are a senior career coach and technical mentor.\n\nTask: Compare the user\x27s current skills against the target job and identify:\n1. Strong matches\n2. Partial matches\n3. Clear gaps\n4. A step-by-step learning path (ordered roadmap) to close the gaps.\n5. Recommended resources or practice project ideas.\n\nBe concrete and structured. Use short sections and bullet points.\n\nUser & Job Info:\n",
    rfl⟩⟩
